import Mathlib

/-!
Verification of the task-management REST API (FastAPI + MongoDB source) against
its natural-language specification.  The Python source is shallowly embedded:
pydantic models become structures, the MongoDB collections become lists inside
an explicit `DB` state, and each service method / route handler becomes a pure
function threading that state.  Machine integers are modelled as `Int`/`Nat`
(the ids are int64 in the store and never approach the bound in any operation
modelled here; no arithmetic that could overflow occurs).
-/

set_option maxRecDepth 8192

namespace TaskMgr


/-- Priority enum from src/models/task.py. -/
inductive Priority where
  | low
  | medium
  | high
  | urgent
deriving DecidableEq, Repr

/-- TaskStatus enum from src/models/task.py. -/
inductive TaskStatus where
  | pending
  | in_progress
  | completed
  | cancelled
deriving DecidableEq, Repr

/-- Complete task model (class `Task(TaskBase)` in src/models/task.py):
base fields `title`, `description`, `priority`, `due_date`, then `id`,
`status`, `user_id`, `created_at`, `updated_at`.  Note: the model declares
no `assigned_to` field. -/
structure Task where
  title : String
  description : Option String
  priority : Priority
  due_date : Option Nat
  id : Int
  status : TaskStatus
  user_id : Int
  created_at : Nat
  updated_at : Nat
deriving DecidableEq, Repr

/-- `TaskCreate(TaskBase)` from src/models/task.py. -/
structure TaskCreate where
  title : String
  description : Option String
  priority : Priority
  due_date : Option Nat
deriving DecidableEq, Repr

/-- `TaskUpdate` from src/models/task.py: every field optional, `none`
modelling a field left unset (pydantic `exclude_unset` semantics; the
claims under study never set a field to an explicit null, so one `Option`
layer suffices).  Note: no `assigned_to` field is declared. -/
structure TaskUpdate where
  title : Option String := none
  description : Option String := none
  priority : Option Priority := none
  status : Option TaskStatus := none
  due_date : Option Nat := none
deriving DecidableEq, Repr

/-- Modelled from the spec: `TaskAssignment` is imported by src/api/tasks.py
from src.models.task but is missing from that module; the spec gives the
assignment request body a single `assigned_to` field. -/
structure TaskAssignment where
  assigned_to : Int
deriving DecidableEq, Repr

/-- Stored user document (`UserInDB` in src/models/user.py): base fields
`email`, `username`, `full_name`, then `id`, `is_active`, `is_admin`,
`created_at`, `last_login`, plus `hashed_password`. -/
structure UserInDB where
  email : String
  username : String
  full_name : Option String
  id : Int
  is_active : Bool
  is_admin : Bool
  created_at : Nat
  last_login : Option Nat
  hashed_password : String
deriving DecidableEq, Repr

/-- Outward-facing user model (`User` in src/models/user.py): same fields
without `hashed_password`. -/
structure User where
  email : String
  username : String
  full_name : Option String
  id : Int
  is_active : Bool
  is_admin : Bool
  created_at : Nat
  last_login : Option Nat
deriving DecidableEq, Repr

/-- `User(**user.model_dump(exclude={"hashed_password"}))`: drop the digest. -/
def UserInDB.toPublic (u : UserInDB) : User :=
  { email := u.email, username := u.username, full_name := u.full_name,
    id := u.id, is_active := u.is_active, is_admin := u.is_admin,
    created_at := u.created_at, last_login := u.last_login }

/-- `UserCreate` from src/models/user.py. -/
structure UserCreate where
  email : String
  username : String
  full_name : Option String
  password : String
deriving DecidableEq, Repr

/-- JWT claim set built by `create_access_token` (`TokenPayload`). -/
structure TokenPayload where
  sub : Int
  exp : Nat
  iat : Nat
deriving DecidableEq, Repr

/-- Modelled from the spec: the compact signed-token encoding (python-jose)
is an excluded collaborator; a wire token is either a well-formed claim set
signed under some secret, or malformed text. -/
inductive RawToken where
  | signed (payload : TokenPayload) (secret : String)
  | malformed (text : String)
deriving DecidableEq, Repr

/-- `Token` response model from src/models/user.py. -/
structure Token where
  access_token : RawToken
  token_type : String
  expires_in : Int
deriving DecidableEq, Repr

/-- Error taxonomy of the handlers: conflict is HTTP 400, unauthenticated 401,
forbidden 403, notFound 404 (the status codes raised in src/api). -/
inductive ApiError where
  | conflict
  | unauthenticated
  | forbidden
  | notFound
deriving DecidableEq, Repr

/-- The MongoDB collections (`users`, `tasks`, `counters`) as one state. -/
structure DB where
  users : List UserInDB
  tasks : List Task
  counters : List (String × Int)
deriving DecidableEq, Repr

/-- Lookup of a counter document by `_id` (field `seq`). -/
def counterLookup : List (String × Int) → String → Option Int
  | [], _ => none
  | c :: rest, name => if c.1 = name then some c.2 else counterLookup rest name

/-- The atomic `$inc` with `upsert=True`: increment the first matching
counter, or append a fresh one at sequence 1 (0 created, then incremented). -/
def counterIncr : List (String × Int) → String → List (String × Int)
  | [], name => [(name, 1)]
  | c :: rest, name =>
    if c.1 = name then (c.1, c.2 + 1) :: rest else c :: counterIncr rest name

/-- `_get_next_id` of both services (src/services/auth_service.py and
src/services/task_service.py): `find_one_and_update({"_id": name},
{"$inc": {"seq": 1}}, upsert=True, return_document=True)` — increment the
counter (creating it if absent) and return the post-update sequence value. -/
def next_id (db : DB) (name : String) : Int × DB :=
  let counters' := counterIncr db.counters name
  ((counterLookup counters' name).getD 0, { db with counters := counters' })

/-- Iterate `next_id` for the same entity name, collecting the values. -/
def next_ids (db : DB) (name : String) : Nat → List Int × DB
  | 0 => ([], db)
  | n + 1 =>
    let (v, db') := next_id db name
    let (vs, db'') := next_ids db' name n
    (v :: vs, db'')

/-- Secret from src/services/auth_service.py. -/
def SECRET_KEY : String := "your-secret-key-here"

/-- Token lifetime from src/services/auth_service.py. -/
def ACCESS_TOKEN_EXPIRE_MINUTES : Nat := 60

/-- Modelled from the spec: the bcrypt capability `hash(password) -> digest`
(passlib is an excluded collaborator): an injective digest constructor. -/
def hashPassword (password : String) : String := "bcrypt-digest:" ++ password

/-- Modelled from the spec: `verify(password, digest) -> bool`. -/
def verifyPassword (password digest : String) : Bool := digest == hashPassword password

/-- `AuthService.get_user_by_email`: `db.users.find_one({"email": email})`. -/
def AuthService.get_user_by_email (db : DB) (email : String) : Option UserInDB :=
  db.users.find? (fun u => u.email == email)

/-- `AuthService.get_user_by_username` (returns the outward `User` model). -/
def AuthService.get_user_by_username (db : DB) (username : String) : Option User :=
  (db.users.find? (fun u => u.username == username)).map UserInDB.toPublic

/-- `AuthService.get_user_by_id` (returns the outward `User` model). -/
def AuthService.get_user_by_id (db : DB) (user_id : Int) : Option User :=
  (db.users.find? (fun u => u.id == user_id)).map UserInDB.toPublic

/-- `AuthService.create_user`: allocate the id from the `users` counter,
hash the password, set `is_active=True`, `is_admin=False`, insert the
document, and return the user with the digest excluded. -/
def AuthService.create_user (db : DB) (reg : UserCreate) (now : Nat) : User × DB :=
  let (uid, db1) := next_id db "users"
  let record : UserInDB :=
    { email := reg.email, username := reg.username, full_name := reg.full_name,
      id := uid, is_active := true, is_admin := false,
      created_at := now, last_login := none,
      hashed_password := hashPassword reg.password }
  (record.toPublic, { db1 with users := db1.users ++ [record] })

/-- `update_one({"id": uid}, {"$set": {"last_login": now}})`: first match. -/
def setLastLogin : List UserInDB → Int → Nat → List UserInDB
  | [], _, _ => []
  | u :: rest, uid, now =>
    if u.id == uid then { u with last_login := some now } :: rest
    else u :: setLastLogin rest uid now

/-- `AuthService.authenticate_user`: lookup by email, verify the password,
update `last_login`, and return the user object built before that update
(the source returns the record it read, digest stripped). -/
def AuthService.authenticate_user (db : DB) (email password : String) (now : Nat) :
    Option User × DB :=
  match AuthService.get_user_by_email db email with
  | none => (none, db)
  | some u =>
    if verifyPassword password u.hashed_password then
      (some u.toPublic, { db with users := setLastLogin db.users u.id now })
    else (none, db)

/-- `AuthService.create_access_token`: payload `{sub, exp = now + 60 min,
iat = now}` signed with the process secret; `expires_in` in seconds. -/
def AuthService.create_access_token (user : User) (now : Nat) : Token :=
  { access_token :=
      RawToken.signed
        { sub := user.id, exp := now + ACCESS_TOKEN_EXPIRE_MINUTES * 60, iat := now }
        SECRET_KEY,
    token_type := "bearer",
    expires_in := (ACCESS_TOKEN_EXPIRE_MINUTES : Int) * 60 }

/-- Modelled from the spec: `jwt.decode(token, secret, algorithms)` —
fails on malformed input or a signature under a different secret, and a
token "validates successfully until `expires_at`; after that instant,
`validate` fails": the payload is returned iff `now < exp`. -/
def jwtDecode (tok : RawToken) (secret : String) (now : Nat) : Option TokenPayload :=
  match tok with
  | .malformed _ => none
  | .signed payload sig =>
    if sig = secret ∧ now < payload.exp then some payload else none

/-- The token-validation half of `get_current_user` (src/services/
auth_service.py lines 209-215): decode, extract `sub`, any failure is 401. -/
def validate_token (tok : RawToken) (now : Nat) : Except ApiError Int :=
  match jwtDecode tok SECRET_KEY now with
  | none => Except.error ApiError.unauthenticated
  | some payload => Except.ok payload.sub

/-- `get_current_user`: validate the token, then look the user up by the
returned id; a missing user is also 401. -/
def get_current_user (db : DB) (tok : RawToken) (now : Nat) : Except ApiError User :=
  match validate_token tok now with
  | .error e => Except.error e
  | .ok uid =>
    match AuthService.get_user_by_id db uid with
    | none => Except.error ApiError.unauthenticated
    | some u => Except.ok u

/-- `TaskService.get_task`: `db.tasks.find_one({"id": task_id})`. -/
def TaskService.get_task (db : DB) (task_id : Int) : Option Task :=
  db.tasks.find? (fun t => t.id == task_id)

/-- Apply a `$set` of the explicitly-set update fields plus `updated_at`. -/
def applyTaskUpdate (t : Task) (u : TaskUpdate) (now : Nat) : Task :=
  { title := u.title.getD t.title,
    description := match u.description with | some d => some d | none => t.description,
    priority := u.priority.getD t.priority,
    due_date := match u.due_date with | some d => some d | none => t.due_date,
    id := t.id,
    status := u.status.getD t.status,
    user_id := t.user_id,
    created_at := t.created_at,
    updated_at := now }

/-- `find_one_and_update({"id": task_id}, {"$set": ...},
return_document=True)` on the tasks collection: rewrite the first matching
document and return the post-update document, else change nothing. -/
def updateTaskList : List Task → Int → TaskUpdate → Nat → Option Task × List Task
  | [], _, _, _ => (none, [])
  | t :: rest, task_id, u, now =>
    if t.id == task_id then
      (some (applyTaskUpdate t u now), applyTaskUpdate t u now :: rest)
    else
      let (r, rest') := updateTaskList rest task_id u now
      (r, t :: rest')

/-- `TaskService.update_task`: `model_dump(exclude_unset=True)` plus a fresh
`updated_at`, applied through `find_one_and_update`; `none` if absent. -/
def TaskService.update_task (db : DB) (task_id : Int) (u : TaskUpdate) (now : Nat) :
    Option Task × DB :=
  let (r, tasks') := updateTaskList db.tasks task_id u now
  (r, { db with tasks := tasks' })

/-- `delete_one({"id": task_id})`: remove the first matching document. -/
def deleteTaskList : List Task → Int → List Task
  | [], _ => []
  | t :: rest, task_id =>
    if t.id == task_id then rest else t :: deleteTaskList rest task_id

/-- `TaskService.delete_task`. -/
def TaskService.delete_task (db : DB) (task_id : Int) : Bool × DB :=
  ((TaskService.get_task db task_id).isSome,
   { db with tasks := deleteTaskList db.tasks task_id })

/-- `TaskService.create_task`: allocate the id from the `tasks` counter, set
`status=pending`, `created_at=updated_at=now`, owner from the caller. -/
def TaskService.create_task (db : DB) (data : TaskCreate) (user_id : Int) (now : Nat) :
    Task × DB :=
  let (tid, db1) := next_id db "tasks"
  let task : Task :=
    { title := data.title, description := data.description,
      priority := data.priority, due_date := data.due_date,
      id := tid, status := TaskStatus.pending, user_id := user_id,
      created_at := now, updated_at := now }
  (task, { db1 with tasks := db1.tasks ++ [task] })

/-- Route `POST /api/auth/register` (src/api/auth.py `register`): the two
existence pre-checks raise 400 (Conflict), otherwise `create_user`. -/
def Api.register (db : DB) (reg : UserCreate) (now : Nat) :
    Except ApiError User × DB :=
  if (AuthService.get_user_by_email db reg.email).isSome then
    (Except.error ApiError.conflict, db)
  else if (AuthService.get_user_by_username db reg.username).isSome then
    (Except.error ApiError.conflict, db)
  else
    let (u, db') := AuthService.create_user db reg now
    (Except.ok u, db')

/-- Route `POST /api/auth/login` (src/api/auth.py `login`): 401 on failed
authentication, 403 if the account is inactive, else a fresh token. -/
def Api.login (db : DB) (email password : String) (now : Nat) :
    Except ApiError Token × DB :=
  match AuthService.authenticate_user db email password now with
  | (none, db') => (Except.error ApiError.unauthenticated, db')
  | (some user, db') =>
    if !user.is_active then (Except.error ApiError.forbidden, db')
    else (Except.ok (AuthService.create_access_token user now), db')

/-- Route `POST /api/auth/token` (src/api/auth.py `login_for_access_token`):
the OAuth2 form's `username` field is passed as the email; 401 on failed
authentication, and a token otherwise — the handler performs no
`is_active` check. -/
def Api.login_for_access_token (db : DB) (username password : String) (now : Nat) :
    Except ApiError Token × DB :=
  match AuthService.authenticate_user db username password now with
  | (none, db') => (Except.error ApiError.unauthenticated, db')
  | (some user, db') => (Except.ok (AuthService.create_access_token user now), db')

/-- Route `GET /api/tasks/{id}` (src/api/tasks.py `get_task`): 404 if
absent, 403 unless owner or admin. -/
def Api.get_task (db : DB) (task_id : Int) (current_user : User) :
    Except ApiError Task :=
  match TaskService.get_task db task_id with
  | none => Except.error ApiError.notFound
  | some task =>
    if task.user_id != current_user.id && !current_user.is_admin then
      Except.error ApiError.forbidden
    else Except.ok task

/-- Route `PUT /api/tasks/{id}` (src/api/tasks.py `update_task`): 404 if
absent, 403 unless owner or admin, else the service update.  (The service
returning `none` after the handler found the task is unreachable in this
sequential model; that branch is mapped to 404.) -/
def Api.update_task (db : DB) (task_id : Int) (task_data : TaskUpdate)
    (current_user : User) (now : Nat) : Except ApiError Task × DB :=
  match TaskService.get_task db task_id with
  | none => (Except.error ApiError.notFound, db)
  | some task =>
    if task.user_id != current_user.id && !current_user.is_admin then
      (Except.error ApiError.forbidden, db)
    else
      match TaskService.update_task db task_id task_data now with
      | (some t', db') => (Except.ok t', db')
      | (none, db') => (Except.error ApiError.notFound, db')

/-- Route `DELETE /api/tasks/{id}` (src/api/tasks.py `delete_task`): 404 if
absent, 403 unless owner or admin, else delete (204, no body). -/
def Api.delete_task (db : DB) (task_id : Int) (current_user : User) :
    Except ApiError Unit × DB :=
  match TaskService.get_task db task_id with
  | none => (Except.error ApiError.notFound, db)
  | some task =>
    if task.user_id != current_user.id && !current_user.is_admin then
      (Except.error ApiError.forbidden, db)
    else
      let (_, db') := TaskService.delete_task db task_id
      (Except.ok (), db')

/-- Route `POST /api/tasks/{id}/complete` (src/api/tasks.py `complete_task`):
404 if absent; the permission check is `task.user_id != current_user.id`
alone — no admin clause — then an update setting `status=completed`. -/
def Api.complete_task (db : DB) (task_id : Int) (current_user : User) (now : Nat) :
    Except ApiError Task × DB :=
  match TaskService.get_task db task_id with
  | none => (Except.error ApiError.notFound, db)
  | some task =>
    if task.user_id != current_user.id then
      (Except.error ApiError.forbidden, db)
    else
      match TaskService.update_task db task_id
          { status := some TaskStatus.completed } now with
      | (some t', db') => (Except.ok t', db')
      | (none, db') => (Except.error ApiError.notFound, db')

/-- Route `POST /api/tasks/{id}/assign` (src/api/tasks.py `assign_task`):
404 if the task is absent, 403 unless owner or admin, 404 if the target
user is absent, else `update_task(task_id, TaskUpdate(assigned_to=...))`.
`TaskUpdate` declares no `assigned_to` field and pydantic ignores unknown
constructor fields, so the constructed update sets no field at all. -/
def Api.assign_task (db : DB) (task_id : Int) (assignment : TaskAssignment)
    (current_user : User) (now : Nat) : Except ApiError Task × DB :=
  match TaskService.get_task db task_id with
  | none => (Except.error ApiError.notFound, db)
  | some task =>
    if task.user_id != current_user.id && !current_user.is_admin then
      (Except.error ApiError.forbidden, db)
    else
      match AuthService.get_user_by_id db assignment.assigned_to with
      | none => (Except.error ApiError.notFound, db)
      | some _ =>
        match TaskService.update_task db task_id ({} : TaskUpdate) now with
        | (some t', db') => (Except.ok t', db')
        | (none, db') => (Except.error ApiError.notFound, db')

/-- Python-dict counting: bump the entry for a key, keeping insertion order,
appending a fresh entry at count 1 when the key is new. -/
def bumpCount {α : Type} [DecidableEq α] : List (α × Nat) → α → List (α × Nat)
  | [], k => [(k, 1)]
  | (k0, n) :: rest, k =>
    if k0 = k then (k0, n + 1) :: rest else (k0, n) :: bumpCount rest k

/-- Read a count out of such a dict (missing key counts 0, as `dict.get`). -/
def countOf {α : Type} [DecidableEq α] : List (α × Nat) → α → Nat
  | [], _ => 0
  | (k0, n) :: rest, k => if k0 = k then n else countOf rest k

/-- The overdue test of the statistics loop:
`due_date and due_date < now and status != TaskStatus.COMPLETED`. -/
def isOverdue (t : Task) (now : Nat) : Bool :=
  match t.due_date with
  | none => false
  | some d => decide (d < now) && t.status != TaskStatus.completed

/-- Result shape of `get_task_statistics`. -/
structure TaskStatistics where
  total : Nat
  by_status : List (TaskStatus × Nat)
  by_priority : List (Priority × Nat)
  overdue_count : Nat
deriving DecidableEq, Repr

/-- One step of the statistics loop body. -/
def statsStep (now : Nat) (acc : TaskStatistics) (t : Task) : TaskStatistics :=
  { acc with
    by_status := bumpCount acc.by_status t.status,
    by_priority := bumpCount acc.by_priority t.priority,
    overdue_count := acc.overdue_count + (if isOverdue t now then 1 else 0) }

/-- `TaskService.get_task_statistics`: read the owner's tasks through
`find({"user_id": user_id}).to_list(length=1000)` — i.e. at most the first
1000 matching documents — then one accumulation pass, with
`total = len(tasks)`. -/
def TaskService.get_task_statistics (db : DB) (user_id : Int) (now : Nat) :
    TaskStatistics :=
  let tasks := (db.tasks.filter (fun t => t.user_id == user_id)).take 1000
  let acc := tasks.foldl (statsStep now)
    { total := 0, by_status := [], by_priority := [], overdue_count := 0 }
  { acc with total := tasks.length }

/-- JSON-ish values appearing in a serialized pydantic model. -/
inductive JsonVal where
  | str (s : String)
  | int (i : Int)
  | bool (b : Bool)
  | time (t : Nat)
  | null
deriving DecidableEq, Repr

/-- Serialize an optional string field. -/
def optStrVal : Option String → JsonVal
  | none => JsonVal.null
  | some s => JsonVal.str s

/-- Serialize an optional timestamp field. -/
def optTimeVal : Option Nat → JsonVal
  | none => JsonVal.null
  | some t => JsonVal.time t

/-- `model_dump()` of the outward `User` model: the exact field list of
`User` in src/models/user.py (this is the registration response body). -/
def User.model_dump (u : User) : List (String × JsonVal) :=
  [("email", JsonVal.str u.email),
   ("username", JsonVal.str u.username),
   ("full_name", optStrVal u.full_name),
   ("id", JsonVal.int u.id),
   ("is_active", JsonVal.bool u.is_active),
   ("is_admin", JsonVal.bool u.is_admin),
   ("created_at", JsonVal.time u.created_at),
   ("last_login", optTimeVal u.last_login)]

/-- `model_dump()` of the stored `UserInDB` document: the public fields plus
`hashed_password`. -/
def UserInDB.model_dump (u : UserInDB) : List (String × JsonVal) :=
  u.toPublic.model_dump ++ [("hashed_password", JsonVal.str u.hashed_password)]

/-! Concrete fixtures used by counterexamples and witnesses. -/

/-- An empty store. -/
def dbEmpty : DB := { users := [], tasks := [], counters := [] }

/-- A task owned by user 1. -/
def aliceTask : Task :=
  { title := "T", description := none, priority := Priority.medium, due_date := none,
    id := 1, status := TaskStatus.pending, user_id := 1, created_at := 0, updated_at := 0 }

/-- The owner of `aliceTask`. -/
def ownerUser : User :=
  { email := "alice@example.com", username := "alice", full_name := none,
    id := 1, is_active := true, is_admin := false, created_at := 0, last_login := none }

/-- An administrator who does not own `aliceTask`. -/
def adminUser : User :=
  { email := "admin@example.com", username := "admin", full_name := none,
    id := 2, is_active := true, is_admin := true, created_at := 0, last_login := none }

/-- A second ordinary stored user (assignment target). -/
def bobUser : UserInDB :=
  { email := "bob@example.com", username := "bob", full_name := none,
    id := 2, is_active := true, is_admin := false, created_at := 0, last_login := none,
    hashed_password := hashPassword "bobpassword1" }

/-- A store holding `aliceTask` and the user `bobUser`. -/
def dbOne : DB := { users := [bobUser], tasks := [aliceTask], counters := [] }

/-- A stored user whose account is disabled, with password `pw12345678`. -/
def inactiveUser : UserInDB :=
  { email := "inactive@example.com", username := "sleepy", full_name := none,
    id := 3, is_active := false, is_admin := false, created_at := 0, last_login := none,
    hashed_password := hashPassword "pw12345678" }

/-- A store holding only the inactive user. -/
def dbInactive : DB := { users := [inactiveUser], tasks := [], counters := [] }

/-- A registration request. -/
def regAlice : UserCreate :=
  { email := "alice@example.com", username := "alice", full_name := none,
    password := "password123" }

/-- A second registration request reusing the email of `regAlice`. -/
def regDupEmail : UserCreate :=
  { email := "alice@example.com", username := "bob", full_name := none,
    password := "secret12345" }

/-- The user record returned by the first successful registration. -/
def aliceCreated : User := (AuthService.create_user dbEmpty regAlice 3).1

/-- The store after the first successful registration. -/
def dbAfterAlice : DB := (Api.register dbEmpty regAlice 3).2

/-- A family of tasks owned by user 1 with distinct ids. -/
def seqTask (i : Nat) : Task := { aliceTask with id := (i : Int) }

/-- The first `n` such tasks. -/
def seqTasks (n : Nat) : List Task := (List.range n).map seqTask

/-- A store in which user 1 owns 1001 tasks. -/
def dbBig : DB := { users := [], tasks := seqTasks 1001, counters := [] }

/-- A store in which user 1 owns exactly 1000 tasks. -/
def dbThousand : DB := { users := [], tasks := seqTasks 1000, counters := [] }

/-- The three tasks of the statistics example: now = 100, yesterday = 99,
tomorrow = 101. -/
def statTask1 : Task := { aliceTask with id := 1, status := TaskStatus.pending, due_date := some 99 }

/-- Second statistics-example task. -/
def statTask2 : Task := { aliceTask with id := 2, status := TaskStatus.completed, due_date := some 99 }

/-- Third statistics-example task. -/
def statTask3 : Task := { aliceTask with id := 3, status := TaskStatus.in_progress, due_date := some 101 }

/-- The statistics-example store. -/
def dbStatsExample : DB := { users := [], tasks := [statTask1, statTask2, statTask3], counters := [] }

/-- The contiguous integer range `[start, start + n)` as a list. -/
def intRangeFrom (start : Int) : Nat → List Int
  | 0 => []
  | n + 1 => start :: intRangeFrom (start + 1) n

/-! Helper lemmas. -/

/-- Incrementing a counter makes its stored sequence the old value plus one
(value 0 when the counter document was absent). -/
theorem counterLookup_counterIncr (cs : List (String × Int)) (name : String) :
    counterLookup (counterIncr cs name) name
      = some ((counterLookup cs name).getD 0 + 1) := by
  induction cs with
  | nil => simp [counterIncr, counterLookup]
  | cons c rest ih =>
    by_cases h : c.1 = name <;>
      simp [counterIncr, counterLookup, h, ih]

/-- Membership in a contiguous integer range. -/
theorem mem_intRangeFrom (x start : Int) (n : Nat) :
    x ∈ intRangeFrom start n ↔ start ≤ x ∧ x < start + n := by
  induction n generalizing start with
  | zero => simp [intRangeFrom]
  | succ n ih =>
    simp only [intRangeFrom, List.mem_cons, ih]
    omega

/-- A contiguous integer range has no duplicates. -/
theorem intRangeFrom_nodup (start : Int) (n : Nat) : (intRangeFrom start n).Nodup := by
  induction n generalizing start with
  | zero => simp [intRangeFrom]
  | succ n ih =>
    simp only [intRangeFrom, List.nodup_cons, mem_intRangeFrom, ih, and_true]
    omega

/-- The list of values produced by `n` successive `next_id` calls is the
contiguous range starting just above the current sequence value. -/
theorem next_ids_values (db : DB) (name : String) (n : Nat) :
    (next_ids db name n).1 =
      intRangeFrom ((counterLookup db.counters name).getD 0 + 1) n := by
  induction n generalizing db with
  | zero => simp [next_ids, intRangeFrom]
  | succ n ih =>
    simp only [next_ids, next_id, ih, counterLookup_counterIncr, Option.getD_some,
      intRangeFrom]

/-- `find_one_and_update` on the tasks collection: when a document with the
id exists the post-update document is returned, otherwise nothing changes. -/
theorem updateTaskList_spec (tasks : List Task) (tid : Int) (u : TaskUpdate)
    (now : Nat) :
    (∀ t, tasks.find? (fun x => x.id == tid) = some t →
       ∃ rest, updateTaskList tasks tid u now = (some (applyTaskUpdate t u now), rest))
    ∧ (tasks.find? (fun x => x.id == tid) = none →
       updateTaskList tasks tid u now = (none, tasks)) := by
  induction tasks with
  | nil => simp [updateTaskList]
  | cons hd tl ih =>
    cases h : hd.id == tid with
    | true =>
      constructor
      · intro t ht
        simp only [List.find?, h] at ht
        cases ht
        exact ⟨applyTaskUpdate hd u now :: tl, by simp [updateTaskList, h]⟩
      · intro hn
        simp only [List.find?, h] at hn
        cases hn
    | false =>
      rcases hrec : updateTaskList tl tid u now with ⟨r, rest'⟩
      constructor
      · intro t ht
        simp only [List.find?, h] at ht
        obtain ⟨rest, hrest⟩ := ih.1 t ht
        rw [hrec] at hrest
        cases hrest
        exact ⟨hd :: rest', by simp [updateTaskList, h, hrec]⟩
      · intro hn
        simp only [List.find?, h] at hn
        have hres := ih.2 hn
        rw [hrec] at hres
        cases hres
        simp [updateTaskList, h, hrec]

/-- An update with no set field only rewrites `updated_at`. -/
theorem applyTaskUpdate_empty (t : Task) (now : Nat) :
    applyTaskUpdate t {} now = { t with updated_at := now } := rfl

/-! C3. -/

/-- C3: `next_id` returns the post-increment sequence value: an absent
counter yields 1 (and is stored at 1 = 0 incremented), every call returns
the current sequence plus one, and `n` successive calls for the same entity
name return the contiguous duplicate-free range starting just above the
current sequence value. -/
theorem next_id_postincrement_contiguous (db : DB) (name : String) (n : Nat) :
    (counterLookup db.counters name = none →
       (next_id db name).1 = 1
       ∧ counterLookup (next_id db name).2.counters name = some 1)
    ∧ (next_id db name).1 = (counterLookup db.counters name).getD 0 + 1
    ∧ (next_ids db name n).1 =
        intRangeFrom ((counterLookup db.counters name).getD 0 + 1) n
    ∧ (next_ids db name n).1.Nodup := by
  refine ⟨?_, ?_, next_ids_values db name n, ?_⟩
  · intro h
    constructor
    · simp [next_id, counterLookup_counterIncr, h]
    · simp [next_id, counterLookup_counterIncr, h]
  · simp [next_id, counterLookup_counterIncr]
  · rw [next_ids_values db name n]
    exact intRangeFrom_nodup _ n

/-- C3 witness: on an empty store the first `users` id is 1, the counter is
stored at 1, and five calls return 1..5. -/
theorem next_id_postincrement_contiguous_witness :
    ((next_id dbEmpty "users").1 = 1
      ∧ counterLookup (next_id dbEmpty "users").2.counters "users" = some 1)
    ∧ (next_ids dbEmpty "users" 5).1 =
        intRangeFrom ((counterLookup dbEmpty.counters "users").getD 0 + 1) 5 :=
  ⟨(next_id_postincrement_contiguous dbEmpty "users" 5).1 rfl,
   (next_id_postincrement_contiguous dbEmpty "users" 5).2.2.1⟩

/-! C6. -/

/-- C6: the user record returned by `create_user` — the registration
response body — serializes with neither a `password` nor a
`hashed_password` field; the digest of the submitted password is stored
only on the persisted document, whose outward view is the returned record. -/
theorem registration_response_excludes_digest (db : DB) (reg : UserCreate) (now : Nat) :
    "password" ∉ ((AuthService.create_user db reg now).1.model_dump.map Prod.fst)
    ∧ "hashed_password" ∉ ((AuthService.create_user db reg now).1.model_dump.map Prod.fst)
    ∧ ∃ rec, rec ∈ (AuthService.create_user db reg now).2.users
        ∧ rec.hashed_password = hashPassword reg.password
        ∧ "hashed_password" ∈ (rec.model_dump.map Prod.fst)
        ∧ rec.toPublic = (AuthService.create_user db reg now).1 := by
  refine ⟨?_, ?_, ?_⟩
  · simp [User.model_dump]
  · simp [User.model_dump]
  · refine ⟨{ email := reg.email, username := reg.username, full_name := reg.full_name,
               id := (next_id db "users").1, is_active := true, is_admin := false,
               created_at := now, last_login := none,
               hashed_password := hashPassword reg.password }, ?_, rfl, ?_, ?_⟩
    · simp [AuthService.create_user, next_id]
    · simp [UserInDB.model_dump, User.model_dump]
    · simp [AuthService.create_user, next_id, UserInDB.toPublic]

/-! C8. -/

/-- C8: `update_task` with an empty partial input changes only `updated_at`
(title, description, priority, status, due_date, id, user_id and
created_at are all preserved), and returns `none` when no task with the
given id exists (leaving the store unchanged). -/
theorem update_task_empty_update_frame (db : DB) (tid : Int) (now : Nat) :
    (∀ t, TaskService.get_task db tid = some t →
       (TaskService.update_task db tid {} now).1 = some { t with updated_at := now })
    ∧ (TaskService.get_task db tid = none →
       TaskService.update_task db tid {} now = (none, db)) := by
  constructor
  · intro t ht
    obtain ⟨rest, hrest⟩ := (updateTaskList_spec db.tasks tid {} now).1 t ht
    simp [TaskService.update_task, hrest, applyTaskUpdate_empty]
  · intro h
    have hres := (updateTaskList_spec db.tasks tid {} now).2 h
    simp [TaskService.update_task, hres]

/-- C8 witness: concrete empty update on a present id and on a missing id. -/
theorem update_task_empty_update_frame_witness :
    (TaskService.update_task dbOne 1 {} 5).1 = some { aliceTask with updated_at := 5 }
    ∧ TaskService.update_task dbEmpty 1 {} 5 = (none, dbEmpty) :=
  ⟨(update_task_empty_update_frame dbOne 1 5).1 aliceTask rfl,
   (update_task_empty_update_frame dbEmpty 1 5).2 rfl⟩

/-! C2. -/

/-- C2: a token minted by `create_access_token` carries
`exp = issue time + the configured lifetime` and validates to the user's id
at every instant strictly before `exp`; at or after `exp`, and for tokens
signed under any other secret or malformed tokens, validation fails with
Unauthenticated (token expiry semantics modelled from the spec, python-jose
being an excluded collaborator). -/
theorem token_validation_lifecycle (u : User) (now t : Nat)
    (p : TokenPayload) (sig text : String) :
    ((AuthService.create_access_token u now).access_token
        = RawToken.signed
            { sub := u.id, exp := now + ACCESS_TOKEN_EXPIRE_MINUTES * 60, iat := now }
            SECRET_KEY)
    ∧ (t < now + ACCESS_TOKEN_EXPIRE_MINUTES * 60 →
        validate_token (AuthService.create_access_token u now).access_token t
          = Except.ok u.id)
    ∧ (now + ACCESS_TOKEN_EXPIRE_MINUTES * 60 ≤ t →
        validate_token (AuthService.create_access_token u now).access_token t
          = Except.error ApiError.unauthenticated)
    ∧ (sig ≠ SECRET_KEY →
        validate_token (RawToken.signed p sig) t = Except.error ApiError.unauthenticated)
    ∧ validate_token (RawToken.malformed text) t = Except.error ApiError.unauthenticated := by
  refine ⟨rfl, ?_, ?_, ?_, rfl⟩
  · intro h
    simp [validate_token, jwtDecode, AuthService.create_access_token, h]
  · intro h
    have h' : ¬ t < now + ACCESS_TOKEN_EXPIRE_MINUTES * 60 := by
      simp only [ACCESS_TOKEN_EXPIRE_MINUTES] at h ⊢
      omega
    simp [validate_token, jwtDecode, AuthService.create_access_token, h']
  · intro h
    simp [validate_token, jwtDecode, h]

/-- C2 witness: concrete checks just inside and at the expiry bound, and for
a wrong secret. -/
theorem token_validation_lifecycle_witness :
    validate_token (AuthService.create_access_token ownerUser 0).access_token 3599
      = Except.ok ownerUser.id
    ∧ validate_token (AuthService.create_access_token ownerUser 0).access_token 3600
      = Except.error ApiError.unauthenticated
    ∧ validate_token (RawToken.signed { sub := 1, exp := 9, iat := 0 } "wrong") 0
      = Except.error ApiError.unauthenticated :=
  ⟨(token_validation_lifecycle ownerUser 0 3599 { sub := 1, exp := 9, iat := 0 } "wrong" "junk").2.1
     (by decide),
   (token_validation_lifecycle ownerUser 0 3600 { sub := 1, exp := 9, iat := 0 } "wrong" "junk").2.2.1
     (by decide),
   (token_validation_lifecycle ownerUser 0 0 { sub := 1, exp := 9, iat := 0 } "wrong" "junk").2.2.2.1
     (by decide)⟩

/-! C1. -/

/-- C1 counterexample: an administrator who does not own the task is denied
by the completion endpoint — its permission check tests ownership only —
so completion is not governed by the owner-or-admin rule the claim states. -/
theorem complete_task_admin_forbidden :
    adminUser.is_admin = true
    ∧ aliceTask.user_id ≠ adminUser.id
    ∧ TaskService.get_task dbOne 1 = some aliceTask
    ∧ (Api.complete_task dbOne 1 adminUser 5).1 = Except.error ApiError.forbidden :=
  ⟨rfl, by decide, rfl, rfl⟩

/-- C1 (amended): for an authenticated user and an existing task, read,
update and delete succeed iff the user is the owner or an admin and fail
with Forbidden otherwise; completion succeeds iff the user is the owner,
and fails with Forbidden for everyone else — including an admin who does
not own the task. -/
theorem task_routes_access_control (db : DB) (u : User) (tid : Int) (t : Task)
    (upd : TaskUpdate) (now : Nat)
    (h : TaskService.get_task db tid = some t) :
    ((t.user_id = u.id ∨ u.is_admin = true) →
       Api.get_task db tid u = Except.ok t
       ∧ (Api.update_task db tid upd u now).1 = Except.ok (applyTaskUpdate t upd now)
       ∧ (Api.delete_task db tid u).1 = Except.ok ()
       ∧ (Api.complete_task db tid u now).1 =
           (if t.user_id = u.id
            then Except.ok (applyTaskUpdate t { status := some TaskStatus.completed } now)
            else Except.error ApiError.forbidden))
    ∧ (¬(t.user_id = u.id ∨ u.is_admin = true) →
       Api.get_task db tid u = Except.error ApiError.forbidden
       ∧ (Api.update_task db tid upd u now).1 = Except.error ApiError.forbidden
       ∧ (Api.delete_task db tid u).1 = Except.error ApiError.forbidden
       ∧ (Api.complete_task db tid u now).1 = Except.error ApiError.forbidden) := by
  have hfind : db.tasks.find? (fun x => x.id == tid) = some t := h
  obtain ⟨rest, hrest⟩ := (updateTaskList_spec db.tasks tid upd now).1 t hfind
  obtain ⟨restc, hrestc⟩ :=
    (updateTaskList_spec db.tasks tid { status := some TaskStatus.completed } now).1 t hfind
  have hu : TaskService.update_task db tid upd now
      = (some (applyTaskUpdate t upd now), { db with tasks := rest }) := by
    simp [TaskService.update_task, hrest]
  have hc : TaskService.update_task db tid { status := some TaskStatus.completed } now
      = (some (applyTaskUpdate t { status := some TaskStatus.completed } now),
         { db with tasks := restc }) := by
    simp [TaskService.update_task, hrestc]
  constructor
  · intro hok
    have hg : (t.user_id != u.id && !u.is_admin) = false := by
      rcases hok with hown | hadm
      · simp [hown]
      · simp [hadm]
    refine ⟨?_, ?_, ?_, ?_⟩
    · simp [Api.get_task, h, hg]
    · simp [Api.update_task, h, hg, hu]
    · simp [Api.delete_task, h, hg]
    · by_cases hown : t.user_id = u.id
      · simp [Api.complete_task, h, hc, hown]
      · simp [Api.complete_task, h, hown]
  · intro hko
    push_neg at hko
    obtain ⟨hown, hadm⟩ := hko
    have hadm' : u.is_admin = false := by
      cases hb : u.is_admin
      · rfl
      · exact absurd hb hadm
    have hg : (t.user_id != u.id && !u.is_admin) = true := by
      simp [bne_iff_ne, hown, hadm']
    refine ⟨?_, ?_, ?_, ?_⟩
    · simp [Api.get_task, h, hg]
    · simp [Api.update_task, h, hg]
    · simp [Api.delete_task, h, hg]
    · simp [Api.complete_task, h, hown]

/-- C1 witness: the owner of a concrete stored task can read, update,
delete and complete it. -/
theorem task_routes_access_control_witness :
    Api.get_task dbOne 1 ownerUser = Except.ok aliceTask
    ∧ (Api.update_task dbOne 1 {} ownerUser 5).1 = Except.ok (applyTaskUpdate aliceTask {} 5)
    ∧ (Api.delete_task dbOne 1 ownerUser).1 = Except.ok ()
    ∧ (Api.complete_task dbOne 1 ownerUser 5).1 =
        (if aliceTask.user_id = ownerUser.id
         then Except.ok (applyTaskUpdate aliceTask { status := some TaskStatus.completed } 5)
         else Except.error ApiError.forbidden) :=
  (task_routes_access_control dbOne ownerUser 1 aliceTask {} 5 rfl).1 (Or.inl rfl)

/-! C4. -/

/-- C4 counterexample: an inactive stored user presenting correct
credentials is rejected with Forbidden by `/api/auth/login` but receives a
token from `/api/auth/token`, which performs no `is_active` check — the two
endpoints do not behave the same. -/
theorem token_endpoint_ignores_inactive :
    inactiveUser.is_active = false
    ∧ (Api.login dbInactive "inactive@example.com" "pw12345678" 0).1
        = Except.error ApiError.forbidden
    ∧ (Api.login_for_access_token dbInactive "inactive@example.com" "pw12345678" 0).1
        = Except.ok (AuthService.create_access_token inactiveUser.toPublic 0) :=
  ⟨rfl, rfl, rfl⟩

/-- C4 (amended): the two endpoints agree when authentication fails (both
return Unauthenticated) and when the account is active; for an inactive
user with correct credentials, `/api/auth/login` fails with Forbidden while
`/api/auth/token` issues a token. -/
theorem login_vs_token_endpoint (db : DB) (email password : String) (now : Nat) :
    ((AuthService.authenticate_user db email password now).1 = none →
       (Api.login db email password now).1 = Except.error ApiError.unauthenticated
       ∧ (Api.login_for_access_token db email password now).1
           = Except.error ApiError.unauthenticated)
    ∧ (∀ u, (AuthService.authenticate_user db email password now).1 = some u →
       (Api.login_for_access_token db email password now).1
           = Except.ok (AuthService.create_access_token u now)
       ∧ (u.is_active = true →
           (Api.login db email password now).1
             = Except.ok (AuthService.create_access_token u now))
       ∧ (u.is_active = false →
           (Api.login db email password now).1 = Except.error ApiError.forbidden)) := by
  rcases hA : AuthService.authenticate_user db email password now with ⟨ores, db'⟩
  constructor
  · intro hnone
    have hores : ores = none := hnone
    cases hores
    constructor
    · simp [Api.login, hA]
    · simp [Api.login_for_access_token, hA]
  · intro u hsome
    have hores : ores = some u := hsome
    cases hores
    refine ⟨?_, ?_, ?_⟩
    · simp [Api.login_for_access_token, hA]
    · intro hact
      simp [Api.login, hA, hact]
    · intro hact
      simp [Api.login, hA, hact]

/-- C4 witness: concrete wrong-credentials agreement and the inactive case. -/
theorem login_vs_token_endpoint_witness :
    ((Api.login dbInactive "nobody@example.com" "pw12345678" 0).1
        = Except.error ApiError.unauthenticated
      ∧ (Api.login_for_access_token dbInactive "nobody@example.com" "pw12345678" 0).1
        = Except.error ApiError.unauthenticated)
    ∧ (Api.login dbInactive "inactive@example.com" "pw12345678" 0).1
        = Except.error ApiError.forbidden :=
  ⟨(login_vs_token_endpoint dbInactive "nobody@example.com" "pw12345678" 0).1 rfl,
   ((login_vs_token_endpoint dbInactive "inactive@example.com" "pw12345678" 0).2
      inactiveUser.toPublic rfl).2.2 rfl⟩

/-! C5. -/

/-- C5 evaluation at the failing input: user 1 assigns their task 1 to the
existing user 2; the call succeeds, yet the stored task record is unchanged
except for `updated_at` — the `Task`/`TaskUpdate` models carry no
`assigned_to` field (and `TaskAssignment` is absent from src/models/task.py
altogether), so no assignment is recorded anywhere.  The absent-target
branch does return NotFound. -/
theorem assign_task_stores_no_assignment :
    (AuthService.get_user_by_id dbOne 2).isSome = true
    ∧ (Api.assign_task dbOne 1 { assigned_to := 2 } ownerUser 5).1
        = Except.ok { aliceTask with updated_at := 5 }
    ∧ (Api.assign_task dbOne 1 { assigned_to := 2 } ownerUser 5).2.tasks
        = [{ aliceTask with updated_at := 5 }]
    ∧ (Api.assign_task dbOne 1 { assigned_to := 9 } ownerUser 5).1
        = Except.error ApiError.notFound :=
  ⟨rfl, rfl, rfl, rfl⟩

/-! C7. -/

/-- C7: once a registration has succeeded and been persisted, a second
registration carrying the same email (or the same username) fails with
Conflict and leaves the store unchanged — no user record is created. -/
theorem duplicate_registration_conflict (db : DB) (u1 u2 : UserCreate)
    (now now' : Nat) (user1 : User) (db' : DB)
    (h : Api.register db u1 now = (Except.ok user1, db'))
    (hdup : u2.email = u1.email ∨ u2.username = u1.username) :
    Api.register db' u2 now' = (Except.error ApiError.conflict, db') := by
  by_cases h1 : (AuthService.get_user_by_email db u1.email).isSome
  · simp [Api.register, h1] at h
  · by_cases h2 : (AuthService.get_user_by_username db u1.username).isSome
    · simp [Api.register, h1, h2] at h
    · simp only [Api.register, h1, h2, Bool.false_eq_true, if_false, Prod.mk.injEq] at h
      obtain ⟨hu1, hdb'⟩ := h
      subst hdb'
      have husers : (AuthService.create_user db u1 now).2.users
          = db.users ++
              [{ email := u1.email, username := u1.username, full_name := u1.full_name,
                 id := (next_id db "users").1, is_active := true, is_admin := false,
                 created_at := now, last_login := none,
                 hashed_password := hashPassword u1.password }] := by
        simp [AuthService.create_user, next_id]
      rcases hdup with he | hu
      · have hfe : (AuthService.get_user_by_email
            (AuthService.create_user db u1 now).2 u2.email).isSome := by
          unfold AuthService.get_user_by_email
          rw [husers, List.find?_isSome]
          refine ⟨_, List.mem_append_right _ (List.mem_singleton_self _), ?_⟩
          simp [he]
        simp [Api.register, hfe]
      · by_cases hfe2 : (AuthService.get_user_by_email
            (AuthService.create_user db u1 now).2 u2.email).isSome
        · simp [Api.register, hfe2]
        · have hfu : (AuthService.get_user_by_username
              (AuthService.create_user db u1 now).2 u2.username).isSome := by
            unfold AuthService.get_user_by_username
            rw [husers]
            rw [Option.isSome_map']
            rw [List.find?_isSome]
            exact ⟨_, List.mem_append_right _ (List.mem_singleton_self _), by simp [hu]⟩
          simp [Api.register, hfe2, hfu]

/-- C7 witness: a concrete second registration reusing the email fails with
Conflict and leaves the store as it was. -/
theorem duplicate_registration_conflict_witness :
    Api.register dbAfterAlice regDupEmail 4 = (Except.error ApiError.conflict, dbAfterAlice)
    ∧ regDupEmail.email = regAlice.email :=
  ⟨duplicate_registration_conflict dbEmpty regAlice regDupEmail 3 4 aliceCreated dbAfterAlice
     rfl (Or.inl rfl),
   rfl⟩

/-! Statistics helper lemmas. -/

/-- Bumping a key raises exactly that key's count by one. -/
theorem countOf_bumpCount {α : Type} [DecidableEq α]
    (l : List (α × Nat)) (k k' : α) :
    countOf (bumpCount l k) k' = countOf l k' + (if k = k' then 1 else 0) := by
  induction l with
  | nil => simp [bumpCount, countOf]
  | cons hd tl ih =>
    obtain ⟨k0, n⟩ := hd
    by_cases h : k0 = k
    · subst h
      by_cases h' : k0 = k' <;> simp [bumpCount, countOf, h']
    · by_cases h' : k0 = k'
      · subst h'
        have hkk : ¬ k = k0 := fun hk => h hk.symm
        simp [bumpCount, countOf, h, hkk]
      · simp [bumpCount, countOf, h, h', ih]

/-- The statistics loop never touches `total`. -/
theorem foldl_statsStep_total (l : List Task) (now : Nat) (acc : TaskStatistics) :
    (l.foldl (statsStep now) acc).total = acc.total := by
  induction l generalizing acc with
  | nil => rfl
  | cons t tl ih => simp [List.foldl_cons, ih, statsStep]

/-- The status dict built by the statistics loop counts occurrences. -/
theorem foldl_statsStep_status (l : List Task) (now : Nat) (acc : TaskStatistics)
    (s : TaskStatus) :
    countOf (l.foldl (statsStep now) acc).by_status s
      = countOf acc.by_status s + l.countP (fun t => t.status == s) := by
  induction l generalizing acc with
  | nil => simp
  | cons t tl ih =>
    simp only [List.foldl_cons, ih, statsStep]
    rw [countOf_bumpCount]
    by_cases hts : t.status = s <;> (simp [hts, List.countP_cons]; try omega)

/-- The priority dict built by the statistics loop counts occurrences. -/
theorem foldl_statsStep_priority (l : List Task) (now : Nat) (acc : TaskStatistics)
    (p : Priority) :
    countOf (l.foldl (statsStep now) acc).by_priority p
      = countOf acc.by_priority p + l.countP (fun t => t.priority == p) := by
  induction l generalizing acc with
  | nil => simp
  | cons t tl ih =>
    simp only [List.foldl_cons, ih, statsStep]
    rw [countOf_bumpCount]
    by_cases htp : t.priority = p <;> (simp [htp, List.countP_cons]; try omega)

/-- The overdue counter of the statistics loop counts the overdue tasks. -/
theorem foldl_statsStep_overdue (l : List Task) (now : Nat) (acc : TaskStatistics) :
    (l.foldl (statsStep now) acc).overdue_count
      = acc.overdue_count + l.countP (fun t => isOverdue t now) := by
  induction l generalizing acc with
  | nil => simp
  | cons t tl ih =>
    simp only [List.foldl_cons, ih, statsStep]
    by_cases hov : isOverdue t now <;> (simp [hov, List.countP_cons]; try omega)

/-- Every task of the `seqTasks` family is owned by user 1. -/
theorem seqTasks_filter_owner (n : Nat) :
    (seqTasks n).filter (fun t => t.user_id == (1 : Int)) = seqTasks n := by
  rw [List.filter_eq_self]
  intro a ha
  simp only [seqTasks, List.mem_map] at ha
  obtain ⟨i, _, rfl⟩ := ha
  rfl

/-- Length of the `seqTasks` family. -/
theorem seqTasks_length (n : Nat) : (seqTasks n).length = n := by
  simp [seqTasks]

/-! C9. -/

/-- C9 counterexample: with 1001 stored tasks all owned by user 1, the
statistics report `total = 1000`, not the owner's task count 1001 — so
`total` is not the number of the owner's tasks. -/
theorem statistics_drops_tasks_beyond_1000 :
    (dbBig.tasks.filter (fun t => t.user_id == (1 : Int))).length = 1001
    ∧ (TaskService.get_task_statistics dbBig 1 0).total
        ≠ (dbBig.tasks.filter (fun t => t.user_id == (1 : Int))).length := by
  have hfilter : dbBig.tasks.filter (fun t => t.user_id == (1 : Int)) = seqTasks 1001 :=
    seqTasks_filter_owner 1001
  have hlen : (dbBig.tasks.filter (fun t => t.user_id == (1 : Int))).length = 1001 := by
    rw [hfilter, seqTasks_length]
  have htotal : (TaskService.get_task_statistics dbBig 1 0).total = 1000 := by
    simp only [TaskService.get_task_statistics]
    rw [show dbBig.tasks = seqTasks 1001 from rfl]
    simp [seqTasks_filter_owner, List.length_take, seqTasks_length]
  refine ⟨hlen, ?_⟩
  rw [htotal, hlen]
  omega

/-- C9 (amended): the statistics are computed over (at most) the first 1000
of the owner's task records: `total` is their count, `by_status` and
`by_priority` count them grouped by status and priority, and
`overdue_count` counts those with a due date before now and status other
than completed; on the three-task example the result is `total = 3`,
`by_status = {pending: 1, completed: 1, in_progress: 1}`,
`overdue_count = 1`. -/
theorem statistics_characterization (db : DB) (uid : Int) (now : Nat) :
    (TaskService.get_task_statistics db uid now).total
        = min 1000 (db.tasks.filter (fun t => t.user_id == uid)).length
    ∧ (∀ s, countOf (TaskService.get_task_statistics db uid now).by_status s
        = ((db.tasks.filter (fun t => t.user_id == uid)).take 1000).countP
            (fun t => t.status == s))
    ∧ (∀ p, countOf (TaskService.get_task_statistics db uid now).by_priority p
        = ((db.tasks.filter (fun t => t.user_id == uid)).take 1000).countP
            (fun t => t.priority == p))
    ∧ (TaskService.get_task_statistics db uid now).overdue_count
        = ((db.tasks.filter (fun t => t.user_id == uid)).take 1000).countP
            (fun t => isOverdue t now)
    ∧ TaskService.get_task_statistics dbStatsExample 1 100
        = { total := 3,
            by_status := [(TaskStatus.pending, 1), (TaskStatus.completed, 1),
                          (TaskStatus.in_progress, 1)],
            by_priority := [(Priority.medium, 3)],
            overdue_count := 1 } := by
  refine ⟨?_, ?_, ?_, ?_, by rfl⟩
  · simp only [TaskService.get_task_statistics]
    simp [List.length_take]
  · intro s
    simp only [TaskService.get_task_statistics]
    simp [foldl_statsStep_status, countOf]
  · intro p
    simp only [TaskService.get_task_statistics]
    simp [foldl_statsStep_priority, countOf]
  · simp only [TaskService.get_task_statistics]
    simp [foldl_statsStep_overdue]

/-! C10. -/

/-- C10: the statistics are computed from at most the first 1000 of the
owner's task records: the reported total never exceeds 1000, and once the
owner already has at least 1000 stored tasks, appending further records to
the collection changes none of the reported counts. -/
theorem statistics_reads_at_most_first_1000 (db : DB) (uid : Int) (now : Nat)
    (extra : List Task) :
    (TaskService.get_task_statistics db uid now).total ≤ 1000
    ∧ (1000 ≤ (db.tasks.filter (fun t => t.user_id == uid)).length →
        TaskService.get_task_statistics { db with tasks := db.tasks ++ extra } uid now
          = TaskService.get_task_statistics db uid now) := by
  constructor
  · simp only [TaskService.get_task_statistics]
    simp [List.length_take]
  · intro h
    simp only [TaskService.get_task_statistics]
    rw [List.filter_append, List.take_append_of_le_length h]

/-- C10 witness: with exactly 1000 stored tasks owned by user 1, appending
one more task leaves the statistics unchanged. -/
theorem statistics_reads_at_most_first_1000_witness :
    TaskService.get_task_statistics
        { dbThousand with tasks := dbThousand.tasks ++ [aliceTask] } 1 0
      = TaskService.get_task_statistics dbThousand 1 0 :=
  (statistics_reads_at_most_first_1000 dbThousand 1 0 [aliceTask]).2
    (by rw [show dbThousand.tasks = seqTasks 1000 from rfl, seqTasks_filter_owner,
          seqTasks_length])

end TaskMgr
